import Mathlib

/-!
Verification development for `src/backend/scrape_resorts.py` (skimate).

The script drives a per-resort, per-section pipeline
(fetch rendered HTML → build prompt → LLM completion → clean + JSON decode)
and writes one aggregate snapshot file.  External effects (the headless
browser, the generative-completion service, the clock, the filesystem) are
modelled as oracles supplied in an `Env`; everything computed by the script
itself (string cleanup, JSON decoding, prompt assembly, timestamp
formatting, snapshot assembly, serialization) is embedded as executable
Lean definitions translated from the source.
-/

namespace Skimate

/-! ## JSON values

Model of the Python values produced by `json.loads`: `int` and `float` are
kept separate (as CPython does); a float is stored in exact decimal
scientific form `m * 10 ^ e` as parsed from its literal.  `nan`/`inf`
mirror CPython's acceptance of the non-standard `NaN`, `Infinity` and
`-Infinity` tokens.  Objects keep the member list in textual order
(duplicate keys, which CPython's dict would merge, do not occur in any
statement below). -/

inductive Json where
  | null : Json
  | bool (b : Bool) : Json
  | int (n : Int) : Json
  | float (m : Int) (e : Int) : Json
  | nan : Json
  | inf (neg : Bool) : Json
  | str (s : String) : Json
  | arr (elems : List Json) : Json
  | obj (members : List (String × Json)) : Json

/-! ## A model of Python `json.loads`

`json.loads` (default arguments, as the script calls it on line 132/150)
accepts one JSON value with optional surrounding JSON whitespace
(space, tab, newline, carriage return) and raises `JSONDecodeError`
otherwise; we return `none` where it raises.  The recursive pieces take
explicit fuel so that every definition is structurally recursive and
kernel-computable; each recursive call follows the consumption of at least
one input character, so the generous initial fuel `2 * length + 2` is
never exhausted on any input. -/

def jsonWsChar (c : Char) : Bool :=
  c = ' ' || c = '\t' || c = '\n' || c = '\r'

def skipWs (l : List Char) : List Char :=
  l.dropWhile jsonWsChar

def hexVal (c : Char) : Option Nat :=
  let n := c.toNat
  if 48 ≤ n ∧ n ≤ 57 then some (n - 48)
  else if 97 ≤ n ∧ n ≤ 102 then some (n - 87)
  else if 65 ≤ n ∧ n ≤ 70 then some (n - 55)
  else none

/-- Short escape sequences accepted inside JSON strings. -/
def escMap (c : Char) : Option Char :=
  if c = '"' then some '"'
  else if c = '\\' then some '\\'
  else if c = '/' then some '/'
  else if c = 'b' then some (Char.ofNat 8)
  else if c = 'f' then some (Char.ofNat 12)
  else if c = 'n' then some '\n'
  else if c = 'r' then some '\r'
  else if c = 't' then some '\t'
  else none

/-- Scan the body of a JSON string after its opening quote; returns the
content characters and the remainder after the closing quote.  Strict
mode: unescaped control characters (below 0x20) are rejected, as CPython
does.  `\uXXXX` escapes map through `Char.ofNat` (surrogate halves, which
Lean `Char` cannot hold, do not occur in any statement below). -/
def pStrChars : Nat → List Char → Option (List Char × List Char)
  | 0, _ => none
  | _ + 1, [] => none
  | f + 1, c :: cs =>
    if c = '"' then some ([], cs)
    else if c = '\\' then
      match cs with
      | [] => none
      | e :: cs2 =>
        if e = 'u' then
          match cs2 with
          | a :: b :: c2 :: d :: cs3 =>
            match hexVal a, hexVal b, hexVal c2, hexVal d with
            | some x1, some x2, some x3, some x4 =>
              (pStrChars f cs3).map fun pr =>
                (Char.ofNat (((x1 * 16 + x2) * 16 + x3) * 16 + x4) :: pr.1, pr.2)
            | _, _, _, _ => none
          | _ => none
        else
          match escMap e with
          | some ec => (pStrChars f cs2).map fun pr => (ec :: pr.1, pr.2)
          | none => none
    else if c.toNat < 32 then none
    else (pStrChars f cs).map fun pr => (c :: pr.1, pr.2)

def digitsToNat (ds : List Char) : Nat :=
  ds.foldl (fun a c => a * 10 + (c.toNat - 48)) 0

/-- Parse a JSON number starting at the head of `l` (which begins with `-`
or a digit).  Follows CPython's max-munch regex
`(-?(?:0|[1-9]\d*))(\.\d+)?([eE][-+]?\d+)?`: a bare `.` or a bare
exponent letter is left unconsumed, and a number is an `int` exactly when
neither a fraction nor an exponent was consumed. -/
def pNum (l : List Char) : Option (Json × List Char) :=
  let negL : Bool × List Char := match l with
    | '-' :: r => (true, r)
    | _ => (false, l)
  let neg := negL.1
  let l1 := negL.2
  match l1 with
  | [] => none
  | c :: _ =>
    if c.isDigit then
      let intDigits := if c = '0' then ['0'] else l1.takeWhile Char.isDigit
      let r1 := if c = '0' then l1.drop 1 else l1.dropWhile Char.isDigit
      let fracR : List Char × List Char := match r1 with
        | '.' :: r2 =>
          let fd := r2.takeWhile Char.isDigit
          if fd = [] then ([], r1) else (fd, r2.dropWhile Char.isDigit)
        | _ => ([], r1)
      let fracDigits := fracR.1
      let r3 := fracR.2
      let expR : Option Int × List Char := match r3 with
        | 'e' :: r4 =>
          match r4 with
          | '+' :: r5 =>
            let ed := r5.takeWhile Char.isDigit
            if ed = [] then (none, r3) else (some (digitsToNat ed : Int), r5.dropWhile Char.isDigit)
          | '-' :: r5 =>
            let ed := r5.takeWhile Char.isDigit
            if ed = [] then (none, r3) else (some (-(digitsToNat ed : Int)), r5.dropWhile Char.isDigit)
          | _ =>
            let ed := r4.takeWhile Char.isDigit
            if ed = [] then (none, r3) else (some (digitsToNat ed : Int), r4.dropWhile Char.isDigit)
        | 'E' :: r4 =>
          match r4 with
          | '+' :: r5 =>
            let ed := r5.takeWhile Char.isDigit
            if ed = [] then (none, r3) else (some (digitsToNat ed : Int), r5.dropWhile Char.isDigit)
          | '-' :: r5 =>
            let ed := r5.takeWhile Char.isDigit
            if ed = [] then (none, r3) else (some (-(digitsToNat ed : Int)), r5.dropWhile Char.isDigit)
          | _ =>
            let ed := r4.takeWhile Char.isDigit
            if ed = [] then (none, r3) else (some (digitsToNat ed : Int), r4.dropWhile Char.isDigit)
        | _ => (none, r3)
      let m0 : Nat := digitsToNat (intDigits ++ fracDigits)
      let m : Int := if neg then -(m0 : Int) else (m0 : Int)
      match expR.1 with
      | some ev =>
        some (Json.float m (ev - (fracDigits.length : Int)), expR.2)
      | none =>
        if fracDigits = [] then some (Json.int m, r3)
        else some (Json.float m (-(fracDigits.length : Int)), r3)
    else none

mutual

/-- Parse one JSON value at the head of the input (whitespace already
skipped by the caller). -/
def pVal : Nat → List Char → Option (Json × List Char)
  | 0, _ => none
  | f + 1, l =>
    match l with
    | [] => none
    | 'n' :: 'u' :: 'l' :: 'l' :: r => some (Json.null, r)
    | 't' :: 'r' :: 'u' :: 'e' :: r => some (Json.bool true, r)
    | 'f' :: 'a' :: 'l' :: 's' :: 'e' :: r => some (Json.bool false, r)
    | 'N' :: 'a' :: 'N' :: r => some (Json.nan, r)
    | 'I' :: 'n' :: 'f' :: 'i' :: 'n' :: 'i' :: 't' :: 'y' :: r => some (Json.inf false, r)
    | '-' :: 'I' :: 'n' :: 'f' :: 'i' :: 'n' :: 'i' :: 't' :: 'y' :: r => some (Json.inf true, r)
    | '"' :: r => (pStrChars r.length r).map fun pr => (Json.str ⟨pr.1⟩, pr.2)
    | '[' :: r =>
      match skipWs r with
      | ']' :: r2 => some (Json.arr [], r2)
      | r1 => (pElems f r1).map fun pr => (Json.arr pr.1, pr.2)
    | '\x7b' :: r =>
      match skipWs r with
      | '\x7d' :: r2 => some (Json.obj [], r2)
      | r1 => (pMembers f r1).map fun pr => (Json.obj pr.1, pr.2)
    | c :: _ => if c = '-' || c.isDigit then pNum l else none

/-- Parse a nonempty comma-separated list of array elements up to and
including the closing bracket. -/
def pElems : Nat → List Char → Option (List Json × List Char)
  | 0, _ => none
  | f + 1, l =>
    match pVal f l with
    | none => none
    | some (v, r) =>
      match skipWs r with
      | ',' :: r2 =>
        match pElems f (skipWs r2) with
        | some (vs, r3) => some (v :: vs, r3)
        | none => none
      | ']' :: r2 => some ([v], r2)
      | _ => none

/-- Parse a nonempty comma-separated list of object members up to and
including the closing brace. -/
def pMembers : Nat → List Char → Option (List (String × Json) × List Char)
  | 0, _ => none
  | f + 1, l =>
    match l with
    | '"' :: r =>
      match pStrChars r.length r with
      | none => none
      | some (k, r1) =>
        match skipWs r1 with
        | ':' :: r2 =>
          match pVal f (skipWs r2) with
          | none => none
          | some (v, r3) =>
            match skipWs r3 with
            | ',' :: r4 =>
              match pMembers f (skipWs r4) with
              | some (ms, r5) => some ((⟨k⟩, v) :: ms, r5)
              | none => none
            | '\x7d' :: r4 => some ([(⟨k⟩, v)], r4)
            | _ => none
        | _ => none
    | _ => none

end

/-- Model of `json.loads`: decode a complete JSON document, or `none`
where CPython raises `json.JSONDecodeError`. -/
def jsonParse (s : String) : Option Json :=
  let l := s.data
  match pVal (2 * l.length + 2) (skipWs l) with
  | some (v, r) => if skipWs r = [] then some v else none
  | none => none

example : jsonParse "[1, 2]" = some (Json.arr [Json.int 1, Json.int 2]) := rfl
example : jsonParse "null" = some Json.null := rfl
example : jsonParse " -8.5 " = some (Json.float (-85) (-1)) := rfl
example : jsonParse "Sorry, I cannot process this." = none := rfl
example : jsonParse "" = none := rfl
example : jsonParse "[\"a\", true]" = some (Json.arr [Json.str "a", Json.bool true]) := rfl
example : jsonParse "\x7b\"name\": \"Vista Chair\"\x7d"
    = some (Json.obj [("name", Json.str "Vista Chair")]) := rfl
example : jsonParse "[1,]" = none := rfl
example : jsonParse "01" = none := rfl
example : jsonParse "1e3" = some (Json.float 1 3) := rfl
example : jsonParse "[1] x" = none := rfl

/-! ## Model of `clean_json` (source lines 100-102)

`text.replace("```json", "").replace("```", "").strip()`.

Python `str.replace(old, "")` removes every non-overlapping occurrence of
`old`, scanning left to right and continuing after each removed
occurrence without rescanning earlier output.  `removeAllF` is that
operation with explicit fuel; fuel equal to the input length is always
sufficient because each step consumes at least one character. -/

def removeAllF (pat : List Char) : Nat → List Char → List Char
  | _, [] => []
  | 0, s => s
  | f + 1, c :: cs =>
    if pat.isPrefixOf (c :: cs) then removeAllF pat f ((c :: cs).drop pat.length)
    else c :: removeAllF pat f cs

/-- Python `str.replace(pat, "")` on character lists. -/
def pyRemove (pat : String) (s : List Char) : List Char :=
  removeAllF pat.data s.length s

/-- Characters removed by Python `str.strip()` (the ASCII whitespace set;
the Unicode spaces CPython also strips do not occur in any statement
below). -/
def pyWsChar (c : Char) : Bool :=
  c = ' ' || c = '\t' || c = '\n' || c = '\r' || c = '\x0b' || c = '\x0c'

/-- Python `str.strip()` on character lists: drop whitespace from the
front, then from the back. -/
def pyStrip (s : List Char) : List Char :=
  (s.dropWhile pyWsChar).rdropWhile pyWsChar

/-- Model of `clean_json` on character lists: remove every occurrence of
the json fence opener, then every occurrence of the generic fence, then
strip surrounding whitespace. -/
def cleanL (s : List Char) : List Char :=
  pyStrip (pyRemove "```" (pyRemove "```json" s))

/-- Model of `clean_json` (source lines 100-102). -/
def clean_json (s : String) : String :=
  ⟨cleanL s.data⟩

example : clean_json "```json\n[1, 2]\n```" = "[1, 2]" := rfl
example : clean_json "  [1] " = "[1]" := rfl
example : clean_json "```json\n[\"a```b\"]\n```" = "[\"ab\"]" := rfl
example : clean_json "no fences" = "no fences" := rfl

/-! ## Static configuration (source lines 7-18) -/

def OUTPUT_FILE : String := "docs/api/resort_data.json"

/-- Registry entry, source lines 11-18.  The URL fields are optional
because `main` reads them with `resort.get(...)`. -/
structure ResortConfig where
  id : String
  name : String
  lift_url : Option String
  weather_url : Option String

def RESORTS : List ResortConfig :=
  [{ id := "44444444-4444-4444-4444-444444444444"
     name := "Rusutsu Resort"
     lift_url := some "https://rusutsu.com/lift-and-trail-status/"
     weather_url := some "https://rusutsu.com/snow-and-weather-report/" }]

/-! ## Prompt templates (source lines 20-67)

`LIFT_PROMPT.format(html=x)` on the fixed literal template substitutes
`x` for the single `{html}` field and unescapes the doubled braces of the
example line, so it equals `LIFT_PROMPT_PRE ++ x ++ LIFT_PROMPT_POST`
with the constants below (split at the placeholder, braces already
unescaped); likewise for the weather template. -/

def LIFT_PROMPT_PRE : String :=
  "\nYou are an expert data extractor.\nExtract the ski lift status from the following HTML content.\n\nReturn specific lifts with their status (Open, Closed, Hold, Scheduled, Unknown).\nAlso extract lift type (Gondola, Chairlift, Ropeway, etc.) if mentioned or inferable.\n\nHTML Content:\n"

def LIFT_PROMPT_POST : String :=
  "\n\nOutput must be a valid JSON array of objects with these keys:\n- name: String\n- status: String (Open, Closed, Hold, Scheduled, Unknown)\n- operation_time: String (e.g. \"09:00 - 16:00\")\n- type: String (Gondola, Chairlift, Ropeway, T-Bar, Lift)\n\nExample:\n[\x7b\"name\": \"Vista Chair\", \"status\": \"Open\", \"operation_time\": \"09:00 ~ 16:00\", \"type\": \"Chairlift\"\x7d]\n\nReturn ONLY the raw JSON. No markdown formatting.\n"

def WEATHER_PROMPT_PRE : String :=
  "\nYou are an expert data extractor.\nExtract ski resort weather conditions from the following HTML content.\n\nThe content may contain weather for multiple areas (e.g. \"Base\", \"Summit\", \"West Mt\", \"East Mt\").\nExtract data for EACH distinct area found.\n\nHTML Content:\n"

def WEATHER_PROMPT_POST : String :=
  "\n\nOutput must be a valid JSON array of objects with these keys:\n- name: String (The location name, e.g. \"West Mt Summit\")\n- temperature: Number (Celsius. If range, take average or lower bound. If in F, convert.)\n- condition: String (Short description, e.g. \"Snow\", \"Cloudy\")\n- wind_speed: Number (km/h. If m/s, multiply by 3.6)\n- wind_direction: String (e.g. \"NW\")\n- visibility: Number (km. If unable to find, estimate 10.0 for clear, 0.5 for snow)\n- wind_chill: Number (Celsius. If not found, use temperature)\n- summary: String (One sentence summary)\n\nExample:\n[\x7b\"name\": \"Summit\", \"temperature\": -8.5, \"condition\": \"Snow\", \"wind_speed\": 45, \"wind_direction\": \"NW\", \"visibility\": 0.2, \"wind_chill\": -15, \"summary\": \"Blizzard conditions.\"\x7d]\n\nReturn ONLY the raw JSON. No markdown formatting.\n"

/-- Python slicing `s[:n]` on a string: the first `n` code points. -/
def pyTake (s : String) (n : Nat) : String :=
  ⟨s.data.take n⟩

/-- Source line 127: `LIFT_PROMPT.format(html=html[:100000])` — the lift
prompt built from the HTML truncated to the 100000-character budget. -/
def buildLiftPrompt (html : String) : String :=
  LIFT_PROMPT_PRE ++ pyTake html 100000 ++ LIFT_PROMPT_POST

/-- Source line 145: the weather prompt built from the truncated HTML. -/
def buildWeatherPrompt (html : String) : String :=
  WEATHER_PROMPT_PRE ++ pyTake html 100000 ++ WEATHER_PROMPT_POST

/-! ## Python helpers used by the logging code -/

/-- Python `len(...)` on a decoded JSON value: defined for sequences,
strings and mappings, a `TypeError` (here `none`) otherwise — exactly
what `len(resort_data["lifts"])` on line 133 can see. -/
def pyLen : Json → Option Nat
  | Json.arr l => some l.length
  | Json.obj l => some l.length
  | Json.str s => some s.length
  | _ => none

/-- Python type name of a decoded value `len` rejects, as it appears in
the `TypeError` message. -/
def pyTypeName : Json → String
  | Json.null => "NoneType"
  | Json.bool _ => "bool"
  | Json.int _ => "int"
  | _ => "float"

/-- Message of the `TypeError` raised by `len` on a non-sized value. -/
def pyLenErr (v : Json) : String :=
  "object of type '" ++ pyTypeName v ++ "' has no len()"

/-! ## Timestamp (source line 108)

`time.strftime("%Y-%m-%dT%H:%M:%SZ", time.gmtime())` on the current epoch
second.  `gmtime` is the standard proleptic-Gregorian civil-from-days
conversion; `%Y` prints the full year (zero-padded to four digits, which
agrees with glibc for every post-1970 epoch second). -/

def pad2 (n : Nat) : String :=
  if n < 10 then "0" ++ toString n else toString n

def pad4 (n : Nat) : String :=
  if n < 10 then "000" ++ toString n
  else if n < 100 then "00" ++ toString n
  else if n < 1000 then "0" ++ toString n
  else toString n

/-- Civil date `(year, month, day)` of a day count since 1970-01-01. -/
def civilFromDays (days : Nat) : Nat × Nat × Nat :=
  let z := days + 719468
  let era := z / 146097
  let doe := z % 146097
  let yoe := (doe - doe / 1460 + doe / 36524 - doe / 146096) / 365
  let y0 := yoe + era * 400
  let doy := doe - (365 * yoe + yoe / 4 - yoe / 100)
  let mp := (5 * doy + 2) / 153
  let d := doy - (153 * mp + 2) / 5 + 1
  let m := if mp < 10 then mp + 3 else mp - 9
  (if m ≤ 2 then y0 + 1 else y0, m, d)

/-- The ISO-8601 UTC stamp the script produces for epoch second `t`. -/
def isoUtc (t : Nat) : String :=
  let ymd := civilFromDays (t / 86400)
  let rem := t % 86400
  pad4 ymd.1 ++ "-" ++ pad2 ymd.2.1 ++ "-" ++ pad2 ymd.2.2 ++ "T" ++
    pad2 (rem / 3600) ++ ":" ++ pad2 (rem % 3600 / 60) ++ ":" ++ pad2 (rem % 60) ++ "Z"

example : isoUtc 0 = "1970-01-01T00:00:00Z" := rfl
example : isoUtc 1765497599 = "2025-12-11T23:59:59Z" := rfl

/-! ## `os.path.dirname` (source line 160) -/

/-- Model of `posixpath.dirname`: the part before the last slash, with
trailing slashes then stripped unless the result is all slashes. -/
def pyDirname (s : String) : String :=
  let tail := s.data.reverse.dropWhile (fun c => c ≠ '/')
  if tail.all (· = '/') then ⟨tail.reverse⟩
  else ⟨(tail.dropWhile (· = '/')).reverse⟩

example : pyDirname OUTPUT_FILE = "docs/api" := rfl
example : pyDirname "resort_data.json" = "" := rfl

/-! ## Snapshot data model (source lines 107-119, 157) -/

/-- The per-resort record `resort_data` (source lines 114-119): the keys
`lifts` and `weather` are always present, initialized to the empty array
and overwritten only by a successful `json.loads` (with whatever value it
decoded). -/
structure ResortData where
  id : String
  name : String
  lifts : Json
  weather : Json

/-- The aggregate `results` document (source lines 107-110). -/
structure Snapshot where
  last_updated : String
  resorts : List ResortData

/-! ## Serializer: model of `json.dump(results, f, indent=2)` (line 162)

Default `json.dump` options: `ensure_ascii` (non-ASCII escaped),
separators `(",", ": ")` with `indent=2`, `allow_nan`.  Float rendering
covers the exact-decimal cases (CPython's shortest-round-trip `repr` and
its switch to e-notation for extreme exponents are not reproduced; no
statement below evaluates a serialized float). -/

def hexDigit (n : Nat) : Char :=
  if n < 10 then Char.ofNat (48 + n) else Char.ofNat (87 + n)

def hex4 (n : Nat) : String :=
  ⟨[hexDigit (n / 4096 % 16), hexDigit (n / 256 % 16), hexDigit (n / 16 % 16), hexDigit (n % 16)]⟩

def escChar (c : Char) : String :=
  if c = '"' then "\\\""
  else if c = '\\' then "\\\\"
  else if c = '\n' then "\\n"
  else if c = '\t' then "\\t"
  else if c = '\r' then "\\r"
  else if c = Char.ofNat 8 then "\\b"
  else if c = Char.ofNat 12 then "\\f"
  else if 32 ≤ c.toNat ∧ c.toNat < 127 then ⟨[c]⟩
  else if c.toNat < 65536 then "\\u" ++ hex4 c.toNat
  else
    let v := c.toNat - 65536
    "\\u" ++ hex4 (55296 + v / 1024) ++ "\\u" ++ hex4 (56320 + v % 1024)

def escStr (s : String) : String :=
  "\"" ++ String.join (s.data.map escChar) ++ "\""

/-- Decimal rendering of the float `m * 10 ^ e` (exact-decimal cases). -/
def floatRepr (m : Int) (e : Int) : String :=
  if e = 0 then toString m ++ ".0"
  else if 0 < e then toString (m * 10 ^ e.toNat) ++ ".0"
  else
    let k := (-e).toNat
    let ds := toString m.natAbs
    let ds := if ds.length ≤ k then ⟨List.replicate (k + 1 - ds.length) '0'⟩ ++ ds else ds
    (if m < 0 then "-" else "") ++ ds.take (ds.length - k) ++ "." ++ ds.drop (ds.length - k)

def indentSp (lvl : Nat) : String :=
  ⟨List.replicate (2 * lvl) ' '⟩

mutual

/-- Serialize one JSON value at nesting level `lvl`, `indent=2` style. -/
def serJson (lvl : Nat) : Json → String
  | Json.null => "null"
  | Json.bool true => "true"
  | Json.bool false => "false"
  | Json.int n => toString n
  | Json.float m e => floatRepr m e
  | Json.nan => "NaN"
  | Json.inf true => "-Infinity"
  | Json.inf false => "Infinity"
  | Json.str s => escStr s
  | Json.arr [] => "[]"
  | Json.arr (x :: xs) =>
    "[\n" ++ serItems (lvl + 1) x xs ++ "\n" ++ indentSp lvl ++ "]"
  | Json.obj [] => "\x7b\x7d"
  | Json.obj ((k, v) :: ms) =>
    "\x7b\n" ++ serMembers (lvl + 1) k v ms ++ "\n" ++ indentSp lvl ++ "\x7d"
termination_by j => sizeOf j

def serItems (lvl : Nat) (x : Json) : List Json → String
  | [] => indentSp lvl ++ serJson lvl x
  | y :: ys => indentSp lvl ++ serJson lvl x ++ ",\n" ++ serItems lvl y ys
termination_by l => sizeOf x + sizeOf l

def serMembers (lvl : Nat) (k : String) (v : Json) : List (String × Json) → String
  | [] => indentSp lvl ++ escStr k ++ ": " ++ serJson lvl v
  | (k2, v2) :: ys => indentSp lvl ++ escStr k ++ ": " ++ serJson lvl v ++ ",\n" ++ serMembers lvl k2 v2 ys
termination_by l => sizeOf v + sizeOf l

end

/-- The JSON document the script builds for one resort (dict insertion
order of lines 114-119). -/
def resortJson (r : ResortData) : Json :=
  Json.obj [("id", Json.str r.id), ("name", Json.str r.name),
            ("lifts", r.lifts), ("weather", r.weather)]

/-- The JSON document for the whole snapshot (dict insertion order of
lines 107-110). -/
def snapshotJson (s : Snapshot) : Json :=
  Json.obj [("last_updated", Json.str s.last_updated),
            ("resorts", Json.arr (s.resorts.map resortJson))]

/-- Model of `json.dump(results, f, indent=2)`: the exact text written to
the output file. -/
def pyDump (s : Snapshot) : String :=
  serJson 0 (snapshotJson s)

example :
    pyDump { last_updated := "t", resorts := [] }
      = "\x7b\n  \"last_updated\": \"t\",\n  \"resorts\": []\n\x7d" := by
  simp only [pyDump, snapshotJson, List.map_nil, serJson, serMembers]
  rfl

/-! ## Effects: oracles and the event trace

The run's external collaborators are oracles in an `Env`; the order in
which the script touches them is recorded as a list of events.  `setup_ai`
(lines 69-75) is a startup precondition — the process exits before any of
the modelled work if the credential is absent — so the model covers the
run from line 107 on, with the configured model folded into the
`complete` oracle.

* `browser url`: the whole Playwright block (launch → goto → settle →
  `page.content()` → close), `Except.error e` when any of it raises.
* `complete prompt`: `model.generate_content(prompt)` followed by the
  `resp.text` access, `Except.error e` when either raises; `Except.ok t`
  returns the text (possibly empty, which line 129's `if resp.text:`
  treats as falsy).
* `now`: the epoch second `time.gmtime()` reads on line 108.
* `mkdirOk` / `writeOk`: whether `os.makedirs` (line 160) and the
  open/dump (lines 161-162) succeed.  Neither is wrapped in a handler, so
  a failure there is an uncaught exception: the process terminates with a
  non-zero exit status. -/

structure Env where
  browser : String → Except String String
  complete : String → Except String String
  now : Nat
  mkdirOk : Bool
  writeOk : Bool

/-- One observable step of the run: a console line, a browser fetch, a
completion call, the single clock read, the directory creation, or the
file write (the `w` mode of line 161 replaces any prior content). -/
inductive Ev where
  | log (msg : String) : Ev
  | browse (url : String) : Ev
  | llm (prompt : String) : Ev
  | clockRead : Ev
  | mkdirs (dir : String) : Ev
  | fileWrite (path : String) (content : String) : Ev
deriving DecidableEq

/-! ## PageFetcher: `fetch_html_with_browser` (source lines 77-98) -/

/-- Model of `fetch_html_with_browser`: log the attempt, make exactly one
browser attempt, and either return the rendered document or log the
failure (URL and reason) and return `none`.  The `try`/`except Exception`
wrapping the whole body means no error escapes to the caller. -/
def fetch_html_with_browser (env : Env) (url : String) : Option String × List Ev :=
  let pre := [Ev.log ("Fetching " ++ url ++ " with Playwright..."), Ev.browse url]
  match env.browser url with
  | Except.ok content => (some content, pre)
  | Except.error e =>
    (none, pre ++ [Ev.log ("Playwright fetch failed for " ++ url ++ ": " ++ e)])

/-! ## ResponseParser: the clean + decode step (source lines 130-135) -/

/-- Lines 130-135 for the lift section, entered with the completion text
`raw`: clean, decode, and on success assign the decoded value (line 132)
and then let `len(...)` in the success print raise a `TypeError` for
non-sized values — the assignment has already happened, so the value is
kept and the outer handler only logs.  On decode failure keep the empty
list and log a 100-character preview. -/
def parseLiftResponse (raw : String) : Json × List Ev :=
  let cleaned := clean_json raw
  match jsonParse cleaned with
  | some v =>
    match pyLen v with
    | some n => (v, [Ev.log ("  - Extracted " ++ toString n ++ " lifts")])
    | none => (v, [Ev.log ("  - Lift parsing failed: " ++ pyLenErr v)])
  | none =>
    (Json.arr [], [Ev.log ("  - Failed to decode Lift JSON: " ++ pyTake cleaned 100 ++ "...")])

/-- Lines 148-153 for the weather section; identical shape, weather
wording. -/
def parseWeatherResponse (raw : String) : Json × List Ev :=
  let cleaned := clean_json raw
  match jsonParse cleaned with
  | some v =>
    match pyLen v with
    | some n => (v, [Ev.log ("  - Extracted " ++ toString n ++ " weather stations")])
    | none => (v, [Ev.log ("  - Weather parsing failed: " ++ pyLenErr v)])
  | none =>
    (Json.arr [], [Ev.log ("  - Failed to decode Weather JSON: " ++ pyTake cleaned 100 ++ "...")])

/-! ## SnapshotBuilder: the per-resort loop body (source lines 112-157) -/

/-- Lift section (source lines 121-137).  `resort.get("lift_url")` and
`if html:` are Python truthiness tests, so an absent or empty URL skips
the section and an empty document counts as absence; a completion error
is caught by the `except Exception` handler on line 136; empty completion
text fails the `if resp.text:` test and leaves the default.  The result
is the final value of `resort_data["lifts"]` plus the section's events. -/
def processLifts (env : Env) (resort : ResortConfig) : Json × List Ev :=
  match resort.lift_url with
  | none => (Json.arr [], [])
  | some url =>
    if url = "" then (Json.arr [], [])
    else
      let fr := fetch_html_with_browser env url
      match fr.1 with
      | none => (Json.arr [], fr.2)
      | some html =>
        if html = "" then (Json.arr [], fr.2)
        else
          let prompt := buildLiftPrompt html
          match env.complete prompt with
          | Except.error e =>
            (Json.arr [], fr.2 ++ [Ev.llm prompt, Ev.log ("  - Lift parsing failed: " ++ e)])
          | Except.ok t =>
            if t = "" then (Json.arr [], fr.2 ++ [Ev.llm prompt])
            else
              let pr := parseLiftResponse t
              (pr.1, fr.2 ++ [Ev.llm prompt] ++ pr.2)

/-- Weather section (source lines 139-155); same structure as the lift
section with the weather URL, prompt and wording. -/
def processWeather (env : Env) (resort : ResortConfig) : Json × List Ev :=
  match resort.weather_url with
  | none => (Json.arr [], [])
  | some url =>
    if url = "" then (Json.arr [], [])
    else
      let fr := fetch_html_with_browser env url
      match fr.1 with
      | none => (Json.arr [], fr.2)
      | some html =>
        if html = "" then (Json.arr [], fr.2)
        else
          let prompt := buildWeatherPrompt html
          match env.complete prompt with
          | Except.error e =>
            (Json.arr [], fr.2 ++ [Ev.llm prompt, Ev.log ("  - Weather parsing failed: " ++ e)])
          | Except.ok t =>
            if t = "" then (Json.arr [], fr.2 ++ [Ev.llm prompt])
            else
              let pr := parseWeatherResponse t
              (pr.1, fr.2 ++ [Ev.llm prompt] ++ pr.2)

/-- One iteration of the resort loop (source lines 112-157): build the
per-resort record with `id`/`name` copied from the registry entry and the
two section results, both sections always attempted in order. -/
def processResort (env : Env) (resort : ResortConfig) : ResortData × List Ev :=
  let lp := processLifts env resort
  let wp := processWeather env resort
  ({ id := resort.id, name := resort.name, lifts := lp.1, weather := wp.1 },
   Ev.log ("Processing " ++ resort.name ++ "...") :: (lp.2 ++ wp.2))

/-- The snapshot `main` assembles for a given registry before persisting
it: the stamp read at the start (line 108) and one record per registry
entry in registry order. -/
def buildSnapshot (env : Env) (registry : List ResortConfig) : Snapshot :=
  { last_updated := isoUtc env.now
    resorts := registry.map fun r => (processResort env r).1 }

/-- Model of `main` from line 107 on: returns the run's outcome —
`Except.error` exactly when the unguarded persistence code raises, which
terminates the process with a non-zero status — together with the full
event trace.  The clock is read once, when the `results` dict is created,
before any resort is processed. -/
def runMain (env : Env) (registry : List ResortConfig) : Except String Snapshot × List Ev :=
  let snap := buildSnapshot env registry
  let work := (registry.map fun r => (processResort env r).2).flatten
  let evs := Ev.clockRead :: work
  let dir := pyDirname OUTPUT_FILE
  if env.mkdirOk then
    if env.writeOk then
      (Except.ok snap,
       evs ++ [Ev.mkdirs dir, Ev.fileWrite OUTPUT_FILE (pyDump snap),
               Ev.log ("Success! Data written to " ++ OUTPUT_FILE)])
    else
      (Except.error "I/O error while writing the output file",
       evs ++ [Ev.mkdirs dir, Ev.fileWrite OUTPUT_FILE (pyDump snap)])
  else
    (Except.error "I/O error while creating the output directory",
     evs ++ [Ev.mkdirs dir])

/-! ## Predicates used to state the claims -/

/-- The lift section was attempted and some stage of its pipeline failed:
the fetch produced absence (error or empty document), the completion call
raised or returned no text, or the cleaned text failed to decode. -/
def liftSectionFailed (env : Env) (r : ResortConfig) : Bool :=
  match r.lift_url with
  | none => false
  | some url =>
    url ≠ "" &&
    (match env.browser url with
     | Except.error _ => true
     | Except.ok html =>
       html = "" ||
       (match env.complete (buildLiftPrompt html) with
        | Except.error _ => true
        | Except.ok t => t = "" || (jsonParse (clean_json t)).isNone))

/-- Weather-section analogue of `liftSectionFailed`. -/
def weatherSectionFailed (env : Env) (r : ResortConfig) : Bool :=
  match r.weather_url with
  | none => false
  | some url =>
    url ≠ "" &&
    (match env.browser url with
     | Except.error _ => true
     | Except.ok html =>
       html = "" ||
       (match env.complete (buildWeatherPrompt html) with
        | Except.error _ => true
        | Except.ok t => t = "" || (jsonParse (clean_json t)).isNone))

/-- The value `json.loads` delivers for the lift section when every stage
of the pipeline succeeds, `none` when the section is skipped or any stage
fails. -/
def liftDecoded (env : Env) (r : ResortConfig) : Option Json :=
  match r.lift_url with
  | none => none
  | some url =>
    if url = "" then none
    else
      match env.browser url with
      | Except.error _ => none
      | Except.ok html =>
        if html = "" then none
        else
          match env.complete (buildLiftPrompt html) with
          | Except.error _ => none
          | Except.ok t => if t = "" then none else jsonParse (clean_json t)

/-- Weather-section analogue of `liftDecoded`. -/
def weatherDecoded (env : Env) (r : ResortConfig) : Option Json :=
  match r.weather_url with
  | none => none
  | some url =>
    if url = "" then none
    else
      match env.browser url with
      | Except.error _ => none
      | Except.ok html =>
        if html = "" then none
        else
          match env.complete (buildWeatherPrompt html) with
          | Except.error _ => none
          | Except.ok t => if t = "" then none else jsonParse (clean_json t)

/-- A decoded value of sequence shape (a JSON array). -/
def isSequence : Json → Bool
  | Json.arr _ => true
  | _ => false

/-- Events that are part of processing a resort's sections (fetches and
completion calls). -/
def isWorkEv : Ev → Bool
  | Ev.browse _ => true
  | Ev.llm _ => true
  | _ => false

/-- Events that are browser fetch attempts. -/
def isBrowseEv : Ev → Bool
  | Ev.browse _ => true
  | _ => false

/-- Formalization of "the stamp is taken after all resorts are processed":
no fetch or completion work appears after the clock read in the trace. -/
def clockReadAfterAllWork (tr : List Ev) : Bool :=
  ((tr.dropWhile fun e => e != Ev.clockRead).filter isWorkEv).isEmpty

/-! ## Concrete fixtures for witnesses and counterexamples -/

/-- Environment whose browser always fails. -/
def envBrowserFail : Env :=
  { browser := fun _ => Except.error "Timeout 60000ms exceeded"
    complete := fun _ => Except.ok "[]"
    now := 0, mkdirOk := true, writeOk := true }

/-- Environment whose completion returns the non-sequence text `null`. -/
def envNullText : Env :=
  { browser := fun _ => Except.ok "<html><body>lifts</body></html>"
    complete := fun _ => Except.ok "null"
    now := 0, mkdirOk := true, writeOk := true }

/-- Environment whose completion returns the non-sequence text `5`. -/
def envIntText : Env :=
  { browser := fun _ => Except.ok "<html><body>lifts</body></html>"
    complete := fun _ => Except.ok "5"
    now := 0, mkdirOk := true, writeOk := true }

/-- Environment whose completion returns non-JSON prose. -/
def envProseText : Env :=
  { browser := fun _ => Except.ok "<html><body>lifts</body></html>"
    complete := fun _ => Except.ok "Sorry, I cannot process this."
    now := 0, mkdirOk := true, writeOk := true }

/-- Environment whose completion returns a fenced JSON array. -/
def envFencedText : Env :=
  { browser := fun _ => Except.ok "<html><body>lifts</body></html>"
    complete := fun _ =>
      Except.ok "```json\n[\x7b\"name\": \"Vista Chair\", \"status\": \"Open\", \"operation_time\": \"09:00 ~ 16:00\", \"type\": \"Chairlift\"\x7d]\n```"
    now := 0, mkdirOk := true, writeOk := true }

/-- Environment where the file write fails. -/
def envWriteFail : Env :=
  { browser := fun _ => Except.ok "<html><body>lifts</body></html>"
    complete := fun _ => Except.ok "[]"
    now := 0, mkdirOk := true, writeOk := false }

/-- Environment where the directory creation fails. -/
def envMkdirFail : Env :=
  { browser := fun _ => Except.ok "<html><body>lifts</body></html>"
    complete := fun _ => Except.ok "[]"
    now := 0, mkdirOk := false, writeOk := true }

/-- Registry entry with only a lift URL. -/
def cfgLiftOnly : ResortConfig :=
  { id := "r1", name := "R1", lift_url := some "https://x.example/lifts", weather_url := none }

/-- Registry entry with no URLs at all. -/
def cfgNoUrls : ResortConfig :=
  { id := "r0", name := "R0", lift_url := none, weather_url := none }

/-! ## Shared characterization lemmas -/

/-- The final value of `resort_data["lifts"]` is the decoded value when
every stage succeeded and the empty list otherwise. -/
theorem processLifts_fst (env : Env) (r : ResortConfig) :
    (processLifts env r).1 = (liftDecoded env r).getD (Json.arr []) := by
  obtain ⟨i, n, lu, wu⟩ := r
  unfold processLifts liftDecoded
  cases lu with
  | none => rfl
  | some url =>
    dsimp only
    by_cases hu : url = ""
    · subst hu; rfl
    · rw [if_neg hu, if_neg hu]
      simp only [fetch_html_with_browser]
      cases env.browser url with
      | error e => rfl
      | ok html =>
        by_cases hh : html = ""
        · subst hh; rfl
        · simp only [if_neg hh]
          cases env.complete (buildLiftPrompt html) with
          | error e => rfl
          | ok t =>
            by_cases ht : t = ""
            · subst ht; rfl
            · simp only [if_neg ht, parseLiftResponse]
              cases jsonParse (clean_json t) with
              | none => rfl
              | some v =>
                dsimp only
                cases pyLen v <;> rfl

/-- Weather analogue of `processLifts_fst`. -/
theorem processWeather_fst (env : Env) (r : ResortConfig) :
    (processWeather env r).1 = (weatherDecoded env r).getD (Json.arr []) := by
  obtain ⟨i, n, lu, wu⟩ := r
  unfold processWeather weatherDecoded
  cases wu with
  | none => rfl
  | some url =>
    dsimp only
    by_cases hu : url = ""
    · subst hu; rfl
    · rw [if_neg hu, if_neg hu]
      simp only [fetch_html_with_browser]
      cases env.browser url with
      | error e => rfl
      | ok html =>
        by_cases hh : html = ""
        · subst hh; rfl
        · simp only [if_neg hh]
          cases env.complete (buildWeatherPrompt html) with
          | error e => rfl
          | ok t =>
            by_cases ht : t = ""
            · subst ht; rfl
            · simp only [if_neg ht, parseWeatherResponse]
              cases jsonParse (clean_json t) with
              | none => rfl
              | some v =>
                dsimp only
                cases pyLen v <;> rfl

/-- A failed section has no decoded value. -/
theorem liftDecoded_eq_none_of_failed (env : Env) (r : ResortConfig)
    (h : liftSectionFailed env r = true) : liftDecoded env r = none := by
  obtain ⟨i, n, lu, wu⟩ := r
  unfold liftSectionFailed at h
  unfold liftDecoded
  cases lu with
  | none => rfl
  | some url =>
    dsimp only at h ⊢
    by_cases hu : url = ""
    · simp [hu] at h
    · rw [if_neg hu]
      cases hb : env.browser url with
      | error e => rfl
      | ok html =>
        rw [hb] at h
        dsimp only at h ⊢
        by_cases hh : html = ""
        · subst hh; rfl
        · rw [if_neg hh]
          cases hc : env.complete (buildLiftPrompt html) with
          | error e => rfl
          | ok t =>
            rw [hc] at h
            dsimp only at h ⊢
            by_cases ht : t = ""
            · subst ht; rfl
            · rw [if_neg ht]
              simp [hu, hh, ht, Option.isNone_iff_eq_none] at h
              exact h

/-- Weather analogue of `liftDecoded_eq_none_of_failed`. -/
theorem weatherDecoded_eq_none_of_failed (env : Env) (r : ResortConfig)
    (h : weatherSectionFailed env r = true) : weatherDecoded env r = none := by
  obtain ⟨i, n, lu, wu⟩ := r
  unfold weatherSectionFailed at h
  unfold weatherDecoded
  cases wu with
  | none => rfl
  | some url =>
    dsimp only at h ⊢
    by_cases hu : url = ""
    · simp [hu] at h
    · rw [if_neg hu]
      cases hb : env.browser url with
      | error e => rfl
      | ok html =>
        rw [hb] at h
        dsimp only at h ⊢
        by_cases hh : html = ""
        · subst hh; rfl
        · rw [if_neg hh]
          cases hc : env.complete (buildWeatherPrompt html) with
          | error e => rfl
          | ok t =>
            rw [hc] at h
            dsimp only at h ⊢
            by_cases ht : t = ""
            · subst ht; rfl
            · rw [if_neg ht]
              simp [hu, hh, ht, Option.isNone_iff_eq_none] at h
              exact h

/-! ## C7 — absent URL: section skipped entirely -/

/-- C7: with `lift_url` absent the resort record keeps `lifts == []` and
the lift section performs no work at all (no fetch attempt, no events);
symmetrically for an absent `weather_url`. -/
theorem absentUrlSkipsSection (env : Env) (r : ResortConfig) :
    (r.lift_url = none →
      processLifts env r = (Json.arr [], []) ∧
      (processResort env r).1.lifts = Json.arr []) ∧
    (r.weather_url = none →
      processWeather env r = (Json.arr [], []) ∧
      (processResort env r).1.weather = Json.arr []) := by
  constructor
  · intro h
    have hl : processLifts env r = (Json.arr [], []) := by
      unfold processLifts; rw [h]
    exact ⟨hl, by simp [processResort, hl]⟩
  · intro h
    have hw : processWeather env r = (Json.arr [], []) := by
      unfold processWeather; rw [h]
    exact ⟨hw, by simp [processResort, hw]⟩

/-- Witness for C7 at a concrete registry entry with both URLs absent. -/
theorem absentUrlSkipsSection_witness :
    cfgNoUrls.lift_url = none ∧
    processLifts envBrowserFail cfgNoUrls = (Json.arr [], []) ∧
    (processResort envBrowserFail cfgNoUrls).1.lifts = Json.arr [] ∧
    cfgNoUrls.weather_url = none ∧
    processWeather envBrowserFail cfgNoUrls = (Json.arr [], []) ∧
    (processResort envBrowserFail cfgNoUrls).1.weather = Json.arr [] := by
  refine ⟨rfl, ?_, ?_, rfl, ?_, ?_⟩
  · exact ((absentUrlSkipsSection envBrowserFail cfgNoUrls).1 rfl).1
  · exact ((absentUrlSkipsSection envBrowserFail cfgNoUrls).1 rfl).2
  · exact ((absentUrlSkipsSection envBrowserFail cfgNoUrls).2 rfl).1
  · exact ((absentUrlSkipsSection envBrowserFail cfgNoUrls).2 rfl).2

/-! ## C1 — per-section failures are contained -/

/-- C1: a failure at any stage of a section's pipeline (fetch absence,
completion raising or returning no text, decode failure) leaves that
section's list empty; the resort record is still built with both sections
and its identity intact; the run's outcome is decided only by the
persistence flags, never by section failures; and whenever persistence
works the snapshot is written. -/
theorem sectionFailuresContained (env : Env) (r : ResortConfig)
    (registry : List ResortConfig) :
    (liftSectionFailed env r = true → (processLifts env r).1 = Json.arr []) ∧
    (weatherSectionFailed env r = true → (processWeather env r).1 = Json.arr []) ∧
    ((processResort env r).1.id = r.id ∧ (processResort env r).1.name = r.name ∧
     (processResort env r).1.lifts = (processLifts env r).1 ∧
     (processResort env r).1.weather = (processWeather env r).1) ∧
    ((runMain env registry).1 = Except.ok (buildSnapshot env registry) ↔
      (env.mkdirOk = true ∧ env.writeOk = true)) ∧
    (buildSnapshot env registry).resorts.length = registry.length ∧
    (env.mkdirOk = true → env.writeOk = true →
      Ev.fileWrite OUTPUT_FILE (pyDump (buildSnapshot env registry))
        ∈ (runMain env registry).2) := by
  refine ⟨?_, ?_, ⟨rfl, rfl, rfl, rfl⟩, ?_, ?_, ?_⟩
  · intro h
    rw [processLifts_fst, liftDecoded_eq_none_of_failed env r h]
    rfl
  · intro h
    rw [processWeather_fst, weatherDecoded_eq_none_of_failed env r h]
    rfl
  · unfold runMain
    cases hm : env.mkdirOk <;> cases hw : env.writeOk <;> simp
  · simp [buildSnapshot]
  · intro hm hw
    unfold runMain
    rw [hm, hw]
    simp

/-- Witness for C1: a concrete environment whose browser fails on every
URL — the section list is empty, the record is intact, and the snapshot
is still written. -/
theorem sectionFailuresContained_witness :
    liftSectionFailed envBrowserFail cfgLiftOnly = true ∧
    (processLifts envBrowserFail cfgLiftOnly).1 = Json.arr [] ∧
    ((runMain envBrowserFail [cfgLiftOnly]).1 =
        Except.ok (buildSnapshot envBrowserFail [cfgLiftOnly]) ↔
      (envBrowserFail.mkdirOk = true ∧ envBrowserFail.writeOk = true)) ∧
    Ev.fileWrite OUTPUT_FILE (pyDump (buildSnapshot envBrowserFail [cfgLiftOnly]))
      ∈ (runMain envBrowserFail [cfgLiftOnly]).2 := by
  refine ⟨rfl, ?_, ?_, ?_⟩
  · exact (sectionFailuresContained envBrowserFail cfgLiftOnly [cfgLiftOnly]).1 rfl
  · exact (sectionFailuresContained envBrowserFail cfgLiftOnly [cfgLiftOnly]).2.2.2.1
  · exact (sectionFailuresContained envBrowserFail cfgLiftOnly [cfgLiftOnly]).2.2.2.2.2 rfl rfl

/-! ## C2 — snapshot shape: corrected

The id/name/order/one-record-per-entry invariants hold, and the `lifts` /
`weather` keys are always present, defaulting to the empty list.  But the
claim's "always ... sequences, never null" is false: a successful decode
is assigned verbatim (line 132/150), so `lifts` can be `null` (or any
other non-sequence value) in the persisted snapshot. -/

/-- Counterexample to C2 as stated: when the completion text is `null`,
the built (and persisted) resort record has `lifts = null` — present, but
not a sequence. -/
theorem snapshotFieldsNotAlwaysSequences :
    (buildSnapshot envNullText [cfgLiftOnly]).resorts =
      [{ id := "r1", name := "R1", lifts := Json.null, weather := Json.arr [] }] ∧
    ((buildSnapshot envNullText [cfgLiftOnly]).resorts.map fun d => isSequence d.lifts)
      = [false] := ⟨rfl, rfl⟩

/-- C2 amended: the snapshot holds exactly one record per registry entry,
in registry order, with `id`/`name` copied from the entry; the `lifts` /
`weather` fields are always present and equal the empty list unless every
stage of their section succeeded, in which case they hold the decoded
value verbatim (which need not be a sequence). -/
theorem snapshotShapeAmended (env : Env) (registry : List ResortConfig) :
    (buildSnapshot env registry).resorts =
      registry.map (fun r =>
        { id := r.id, name := r.name
          lifts := (liftDecoded env r).getD (Json.arr [])
          weather := (weatherDecoded env r).getD (Json.arr []) }) ∧
    (buildSnapshot env registry).resorts.length = registry.length := by
  constructor
  · unfold buildSnapshot
    refine List.map_congr_left fun r _ => ?_
    have h1 := processLifts_fst env r
    have h2 := processWeather_fst env r
    simp only [processResort] at h1 h2 ⊢
    rw [← h1, ← h2]
  · simp [buildSnapshot]

/-! ## C10 — decoded values are assigned verbatim, unchecked -/

/-- C10: whenever the cleaned completion text decodes (to any JSON shape
whatsoever — object, string, number, null...), the decoded value is
assigned verbatim to the record's `lifts` / `weather` field with no
sequence or schema check. -/
theorem decodedValueAssignedVerbatim (env : Env) (r : ResortConfig) (v : Json) :
    (liftDecoded env r = some v → (processResort env r).1.lifts = v) ∧
    (weatherDecoded env r = some v → (processResort env r).1.weather = v) := by
  constructor
  · intro h
    have := processLifts_fst env r
    rw [h] at this
    exact this
  · intro h
    have := processWeather_fst env r
    rw [h] at this
    exact this

/-- Witness for C10: completion text `5` decodes to the number 5, which
is stored verbatim in `lifts` even though it is not a sequence. -/
theorem decodedValueAssignedVerbatim_witness :
    liftDecoded envIntText cfgLiftOnly = some (Json.int 5) ∧
    (processResort envIntText cfgLiftOnly).1.lifts = Json.int 5 ∧
    isSequence (Json.int 5) = false :=
  ⟨rfl, (decodedValueAssignedVerbatim envIntText cfgLiftOnly (Json.int 5)).1 rfl, rfl⟩

/-! ## C4 — malformed cleaned text: empty result, preview logged, no error -/

/-- C4: for every raw completion text whose cleaned form is not valid
JSON, the parse step yields the empty list and logs exactly one line
containing a 100-character preview of the offending text; being a total
function of the model, it never raises outward (the source catches
`json.JSONDecodeError`, the only error `json.loads` raises on string
input). -/
theorem malformedParseYieldsEmpty (raw : String)
    (h : jsonParse (clean_json raw) = none) :
    parseLiftResponse raw =
      (Json.arr [],
       [Ev.log ("  - Failed to decode Lift JSON: " ++ pyTake (clean_json raw) 100 ++ "...")]) ∧
    parseWeatherResponse raw =
      (Json.arr [],
       [Ev.log ("  - Failed to decode Weather JSON: " ++ pyTake (clean_json raw) 100 ++ "...")]) := by
  simp only [parseLiftResponse, parseWeatherResponse]
  rw [h]
  exact ⟨rfl, rfl⟩

/-- Witness for C4 at the spec's own example of non-JSON prose. -/
theorem malformedParseYieldsEmpty_witness :
    jsonParse (clean_json "Sorry, I cannot process this.") = none ∧
    parseLiftResponse "Sorry, I cannot process this." =
      (Json.arr [],
       [Ev.log ("  - Failed to decode Lift JSON: " ++
        pyTake (clean_json "Sorry, I cannot process this.") 100 ++ "...")]) ∧
    (processResort envProseText cfgLiftOnly).1.lifts = Json.arr [] :=
  ⟨rfl, (malformedParseYieldsEmpty "Sorry, I cannot process this." rfl).1, rfl⟩

/-! ## C5 — prompt building is a pure total function of schema and text -/

/-- C5: prompt building always succeeds and returns the fixed template of
the requested schema with the HTML truncated to the 100000-character
budget substituted into it; it depends on nothing but its arguments (only
the first 100000 characters of the text matter), and the substituted
excerpt never exceeds the budget. -/
theorem promptBuildPureTotal :
    (∀ h, buildLiftPrompt h = LIFT_PROMPT_PRE ++ pyTake h 100000 ++ LIFT_PROMPT_POST) ∧
    (∀ h, buildWeatherPrompt h = WEATHER_PROMPT_PRE ++ pyTake h 100000 ++ WEATHER_PROMPT_POST) ∧
    (∀ h : String, h.length ≤ 100000 →
      buildLiftPrompt h = LIFT_PROMPT_PRE ++ h ++ LIFT_PROMPT_POST ∧
      buildWeatherPrompt h = WEATHER_PROMPT_PRE ++ h ++ WEATHER_PROMPT_POST) ∧
    (∀ h₁ h₂, pyTake h₁ 100000 = pyTake h₂ 100000 →
      buildLiftPrompt h₁ = buildLiftPrompt h₂ ∧
      buildWeatherPrompt h₁ = buildWeatherPrompt h₂) ∧
    (∀ h, (pyTake h 100000).length ≤ 100000) := by
  have htake : ∀ h : String, h.length ≤ 100000 → pyTake h 100000 = h := by
    intro h hlen
    unfold pyTake
    rw [List.take_of_length_le hlen]
  refine ⟨fun _ => rfl, fun _ => rfl, ?_, ?_, ?_⟩
  · intro h hlen
    rw [buildLiftPrompt, buildWeatherPrompt, htake h hlen]
    exact ⟨rfl, rfl⟩
  · intro h₁ h₂ heq
    rw [buildLiftPrompt, buildLiftPrompt, buildWeatherPrompt, buildWeatherPrompt, heq]
    exact ⟨rfl, rfl⟩
  · intro h
    show (h.data.take 100000).length ≤ 100000
    rw [List.length_take]
    exact min_le_left _ _

/-- Witness for C5 at a short concrete text (under the budget). -/
theorem promptBuildPureTotal_witness :
    ("<p>x</p>" : String).length ≤ 100000 ∧
    buildLiftPrompt "<p>x</p>" = LIFT_PROMPT_PRE ++ "<p>x</p>" ++ LIFT_PROMPT_POST ∧
    pyTake "a" 100000 = pyTake "a" 100000 ∧
    buildWeatherPrompt "a" = buildWeatherPrompt "a" :=
  ⟨by decide, (promptBuildPureTotal.2.2.1 "<p>x</p>" (by decide)).1,
   rfl, (promptBuildPureTotal.2.2.2.1 "a" "a" rfl).2⟩

/-! ## C8 — the rendered fetch never raises, single attempt, logged -/

/-- C8: for every URL, the fetch logs the attempted URL first, makes
exactly one browser attempt, and returns either the full rendered
document text or `none`; on failure the reason and the URL are logged.
Totality of the model reflects the `try`/`except Exception` wrapper: no
error propagates to the caller. -/
theorem fetchNeverRaisesSingleAttempt (env : Env) (url : String) :
    (fetch_html_with_browser env url).2.filter isBrowseEv = [Ev.browse url] ∧
    (fetch_html_with_browser env url).2.head? =
      some (Ev.log ("Fetching " ++ url ++ " with Playwright...")) ∧
    (∀ html, env.browser url = Except.ok html →
      fetch_html_with_browser env url =
        (some html,
         [Ev.log ("Fetching " ++ url ++ " with Playwright..."), Ev.browse url])) ∧
    (∀ e, env.browser url = Except.error e →
      fetch_html_with_browser env url =
        (none,
         [Ev.log ("Fetching " ++ url ++ " with Playwright..."), Ev.browse url,
          Ev.log ("Playwright fetch failed for " ++ url ++ ": " ++ e)])) := by
  unfold fetch_html_with_browser
  cases env.browser url with
  | ok html =>
    refine ⟨by simp [isBrowseEv], rfl, ?_, ?_⟩
    · intro h2 hh
      injection hh with hh
      rw [hh]
    · intro e2 he
      exact Except.noConfusion he
  | error e =>
    refine ⟨by simp [isBrowseEv], rfl, ?_, ?_⟩
    · intro h2 hh
      exact Except.noConfusion hh
    · intro e2 he
      injection he with he
      rw [he]
      rfl

/-- Witness for C8: both outcomes at concrete environments. -/
theorem fetchNeverRaisesSingleAttempt_witness :
    envNullText.browser "u" = Except.ok "<html><body>lifts</body></html>" ∧
    fetch_html_with_browser envNullText "u" =
      (some "<html><body>lifts</body></html>",
       [Ev.log ("Fetching " ++ "u" ++ " with Playwright..."), Ev.browse "u"]) ∧
    envBrowserFail.browser "u" = Except.error "Timeout 60000ms exceeded" ∧
    fetch_html_with_browser envBrowserFail "u" =
      (none,
       [Ev.log ("Fetching " ++ "u" ++ " with Playwright..."), Ev.browse "u",
        Ev.log ("Playwright fetch failed for " ++ "u" ++ ": " ++ "Timeout 60000ms exceeded")]) :=
  ⟨rfl,
   (fetchNeverRaisesSingleAttempt envNullText "u").2.2.1 "<html><body>lifts</body></html>" rfl,
   rfl,
   (fetchNeverRaisesSingleAttempt envBrowserFail "u").2.2.2 "Timeout 60000ms exceeded" rfl⟩

/-! ## C9 — persistence: dir creation, indented overwrite, fatal on failure -/

/-- C9: the write phase first ensures the output file's parent directory
(`docs/api`) exists, then writes the `indent=2` serialization of the
snapshot to the fixed path (the `w` open mode replaces any prior file);
when both filesystem steps succeed the run ends successfully, and any
failure there leaves the run's outcome an error — an uncaught exception,
i.e. a non-zero process exit — rather than being contained. -/
theorem persistenceFatalAndShape (env : Env) (registry : List ResortConfig) :
    pyDirname OUTPUT_FILE = "docs/api" ∧
    (env.mkdirOk = true → env.writeOk = true →
      runMain env registry =
        (Except.ok (buildSnapshot env registry),
         Ev.clockRead :: ((registry.map fun r => (processResort env r).2).flatten ++
           [Ev.mkdirs (pyDirname OUTPUT_FILE),
            Ev.fileWrite OUTPUT_FILE (pyDump (buildSnapshot env registry)),
            Ev.log ("Success! Data written to " ++ OUTPUT_FILE)]))) ∧
    (env.mkdirOk = true → env.writeOk = false →
      ∃ msg, runMain env registry =
        (Except.error msg,
         Ev.clockRead :: ((registry.map fun r => (processResort env r).2).flatten ++
           [Ev.mkdirs (pyDirname OUTPUT_FILE),
            Ev.fileWrite OUTPUT_FILE (pyDump (buildSnapshot env registry))]))) ∧
    (env.mkdirOk = false →
      ∃ msg, runMain env registry =
        (Except.error msg,
         Ev.clockRead :: ((registry.map fun r => (processResort env r).2).flatten ++
           [Ev.mkdirs (pyDirname OUTPUT_FILE)]))) ∧
    ((runMain env registry).1 = Except.ok (buildSnapshot env registry) ↔
      (env.mkdirOk = true ∧ env.writeOk = true)) := by
  refine ⟨rfl, ?_, ?_, ?_, ?_⟩
  · intro hm hw
    unfold runMain
    rw [hm, hw]
    simp
  · intro hm hw
    unfold runMain
    rw [hm, hw]
    exact ⟨"I/O error while writing the output file", by simp⟩
  · intro hm
    unfold runMain
    rw [hm]
    exact ⟨"I/O error while creating the output directory", by simp⟩
  · unfold runMain
    cases hm : env.mkdirOk <;> cases hw : env.writeOk <;> simp

/-- Witness for C9: all three persistence outcomes at concrete
environments over the empty registry. -/
theorem persistenceFatalAndShape_witness :
    pyDirname OUTPUT_FILE = "docs/api" ∧
    runMain envNullText [] =
      (Except.ok (buildSnapshot envNullText []),
       Ev.clockRead :: (([] : List ResortConfig).map fun r => (processResort envNullText r).2).flatten ++
         [Ev.mkdirs (pyDirname OUTPUT_FILE),
          Ev.fileWrite OUTPUT_FILE (pyDump (buildSnapshot envNullText [])),
          Ev.log ("Success! Data written to " ++ OUTPUT_FILE)]) ∧
    (∃ msg, (runMain envWriteFail []).1 = Except.error msg) ∧
    (∃ msg, (runMain envMkdirFail []).1 = Except.error msg) := by
  refine ⟨rfl, ?_, ?_, ?_⟩
  · exact (persistenceFatalAndShape envNullText []).2.1 rfl rfl
  · obtain ⟨msg, hmsg⟩ := (persistenceFatalAndShape envWriteFail []).2.2.1 rfl rfl
    exact ⟨msg, by rw [hmsg]⟩
  · obtain ⟨msg, hmsg⟩ := (persistenceFatalAndShape envMkdirFail []).2.2.2.1 rfl
    exact ⟨msg, by rw [hmsg]⟩

/-! ## Timestamp shape lemmas (for C6) -/

/-- The civil date produced by `civilFromDays` has a month in 1..12 and a
day in 1..31. -/
theorem civilFromDays_bounds (days : Nat) :
    1 ≤ (civilFromDays days).2.1 ∧ (civilFromDays days).2.1 ≤ 12 ∧
    1 ≤ (civilFromDays days).2.2 ∧ (civilFromDays days).2.2 ≤ 31 := by
  unfold civilFromDays
  have hdoe : (days + 719468) % 146097 < 146097 := Nat.mod_lt _ (by norm_num)
  dsimp only
  split <;> omega

/-- Every stamp the script can produce is an ISO-8601 UTC timestamp of
second precision: `YYYY-MM-DDTHH:MM:SSZ` with in-range fields. -/
theorem isoUtc_shape (t : Nat) :
    ∃ y m d hh mi ss,
      1 ≤ m ∧ m ≤ 12 ∧ 1 ≤ d ∧ d ≤ 31 ∧ hh < 24 ∧ mi < 60 ∧ ss < 60 ∧
      isoUtc t = pad4 y ++ "-" ++ pad2 m ++ "-" ++ pad2 d ++ "T" ++
        pad2 hh ++ ":" ++ pad2 mi ++ ":" ++ pad2 ss ++ "Z" := by
  obtain ⟨h1, h2, h3, h4⟩ := civilFromDays_bounds (t / 86400)
  refine ⟨(civilFromDays (t / 86400)).1, (civilFromDays (t / 86400)).2.1,
    (civilFromDays (t / 86400)).2.2, t % 86400 / 3600, t % 86400 % 3600 / 60,
    t % 86400 % 60, h1, h2, h3, h4, ?_, ?_, ?_, rfl⟩
  · omega
  · omega
  · omega

/-! ## Cleanup lemmas (for C3)

General facts about `removeAllF` (the model of `str.replace(pat, "")`)
and `pyStrip`, leading to: cleanup of a fenced, fence-free payload yields
exactly the stripped payload, and cleanup is idempotent on every text. -/

theorem removeAllF_nil (pat : List Char) (f : Nat) : removeAllF pat f [] = [] := by
  cases f <;> rfl

theorem removeAllF_zero_cons (pat : List Char) (c : Char) (cs : List Char) :
    removeAllF pat 0 (c :: cs) = c :: cs := rfl

theorem removeAllF_cons_pos (pat : List Char) (f : Nat) (c : Char) (cs : List Char)
    (h : pat.isPrefixOf (c :: cs) = true) :
    removeAllF pat (f + 1) (c :: cs) = removeAllF pat f ((c :: cs).drop pat.length) := by
  simp only [removeAllF]
  rw [if_pos h]

theorem removeAllF_cons_neg (pat : List Char) (f : Nat) (c : Char) (cs : List Char)
    (h : ¬ pat.isPrefixOf (c :: cs) = true) :
    removeAllF pat (f + 1) (c :: cs) = c :: removeAllF pat f cs := by
  simp only [removeAllF]
  rw [if_neg h]

/-- A pattern-free input passes through `removeAllF` unchanged. -/
theorem removeAllF_no_occurrence (pat : List Char) :
    ∀ (f : Nat) (s : List Char), s.length ≤ f → ¬ (pat <:+: s) → removeAllF pat f s = s := by
  intro f
  induction f with
  | zero =>
    intro s hlen _
    have hs : s = [] := List.eq_nil_of_length_eq_zero (Nat.le_zero.mp hlen)
    rw [hs, removeAllF_nil]
  | succ f ih =>
    intro s hlen hinf
    cases s with
    | nil => rw [removeAllF_nil]
    | cons c cs =>
      have hpre : ¬ pat.isPrefixOf (c :: cs) = true := by
        intro hp
        exact hinf (List.isPrefixOf_iff_prefix.mp hp).isInfix
      rw [removeAllF_cons_neg pat f c cs hpre]
      have hcs : ¬ (pat <:+: cs) := fun hx => hinf (List.infix_cons hx)
      have hlen2 : cs.length ≤ f := by
        simp only [List.length_cons] at hlen
        omega
      rw [ih cs hlen2 hcs]

/-- If no single backtick heads `cs`, none heads the removal output. -/
theorem not_one_bt_prefix_removeAllF (f : Nat) (cs : List Char)
    (h : ¬ (['\x60'] <+: cs)) : ¬ (['\x60'] <+: removeAllF "```".data f cs) := by
  cases f with
  | zero =>
    cases cs with
    | nil =>
      rw [removeAllF_nil]
      intro hx
      simpa using hx.length_le
    | cons d ds => exact h
  | succ f =>
    cases cs with
    | nil =>
      rw [removeAllF_nil]
      intro hx
      simpa using hx.length_le
    | cons d ds =>
      have hd : d ≠ '\x60' := by
        intro hdd
        exact h (by rw [hdd]; exact ⟨ds, rfl⟩)
      by_cases hpre : ("```".data).isPrefixOf (d :: ds) = true
      · exfalso
        have hp := List.isPrefixOf_iff_prefix.mp hpre
        rw [show "```".data = '\x60' :: '\x60' :: '\x60' :: ([] : List Char) from rfl] at hp
        exact hd ((List.cons_prefix_cons.mp hp).1.symm)
      · rw [removeAllF_cons_neg _ _ _ _ hpre]
        intro hx
        exact hd ((List.cons_prefix_cons.mp hx).1.symm)

/-- If `cs` does not start with two backticks, neither does the removal
output. -/
theorem not_two_bt_prefix_removeAllF (f : Nat) (cs : List Char)
    (h : ¬ (['\x60', '\x60'] <+: cs)) :
    ¬ (['\x60', '\x60'] <+: removeAllF "```".data f cs) := by
  cases f with
  | zero =>
    cases cs with
    | nil =>
      rw [removeAllF_nil]
      intro hx
      simpa using hx.length_le
    | cons d ds => exact h
  | succ f =>
    cases cs with
    | nil =>
      rw [removeAllF_nil]
      intro hx
      simpa using hx.length_le
    | cons d ds =>
      by_cases hpre : ("```".data).isPrefixOf (d :: ds) = true
      · exfalso
        apply h
        have hp := List.isPrefixOf_iff_prefix.mp hpre
        rw [show "```".data = '\x60' :: '\x60' :: '\x60' :: ([] : List Char) from rfl] at hp
        obtain ⟨hd1, hrest⟩ := List.cons_prefix_cons.mp hp
        exact List.cons_prefix_cons.mpr
          ⟨hd1, (show ['\x60'] <+: ['\x60', '\x60'] from ⟨['\x60'], rfl⟩).trans hrest⟩
      · rw [removeAllF_cons_neg _ _ _ _ hpre]
        intro hx
        obtain ⟨hd1, hone⟩ := List.cons_prefix_cons.mp hx
        have hds : ¬ (['\x60'] <+: ds) := by
          intro hp
          exact h (List.cons_prefix_cons.mpr ⟨hd1, hp⟩)
        exact not_one_bt_prefix_removeAllF f ds hds hone

/-- Removing every occurrence of the generic fence leaves no occurrence
of it: the core of cleanup idempotence. -/
theorem not_fence3_infix_removeAllF :
    ∀ (f : Nat) (s : List Char), s.length ≤ f →
      ¬ ("```".data <:+: removeAllF "```".data f s) := by
  intro f
  induction f with
  | zero =>
    intro s hlen
    have hs : s = [] := List.eq_nil_of_length_eq_zero (Nat.le_zero.mp hlen)
    rw [hs, removeAllF_nil]
    intro hx
    exact absurd (List.eq_nil_of_infix_nil hx) (by decide)
  | succ f ih =>
    intro s hlen
    cases s with
    | nil =>
      rw [removeAllF_nil]
      intro hx
      exact absurd (List.eq_nil_of_infix_nil hx) (by decide)
    | cons c cs =>
      by_cases hpre : ("```".data).isPrefixOf (c :: cs) = true
      · rw [removeAllF_cons_pos _ _ _ _ hpre]
        apply ih
        simp only [List.length_drop, List.length_cons] at *
        omega
      · rw [removeAllF_cons_neg _ _ _ _ hpre]
        intro hx
        rcases List.infix_cons_iff.mp hx with hpfx | htl
        · rw [show "```".data = '\x60' :: '\x60' :: '\x60' :: ([] : List Char) from rfl] at hpfx
          obtain ⟨hc, htwo⟩ := List.cons_prefix_cons.mp hpfx
          have hcs : ¬ (['\x60', '\x60'] <+: cs) := by
            intro hp
            apply hpre
            apply List.isPrefixOf_iff_prefix.mpr
            rw [show "```".data = '\x60' :: '\x60' :: '\x60' :: ([] : List Char) from rfl]
            exact List.cons_prefix_cons.mpr ⟨hc, hp⟩
          exact not_two_bt_prefix_removeAllF f cs hcs htwo
        · have hlen2 : cs.length ≤ f := by
            simp only [List.length_cons] at hlen
            omega
          exact ih cs hlen2 htl

/-- A text without the generic fence has no json-fence opener either. -/
theorem not_fenceJ_infix_of_not_fence3 (s : List Char)
    (h : ¬ ("```".data <:+: s)) : ¬ ("```json".data <:+: s) := by
  intro hx
  have hpre : "```".data <+: "```json".data := ⟨"json".data, rfl⟩
  exact h (hpre.isInfix.trans hx)

/-- The json-fence opener cannot occur in `p ++ "``" ++ "`"` when `p` is
backtick-free: any occurrence would place a backtick inside `p`. -/
theorem not_fenceJ_infix_append (p : List Char) (h : '\x60' ∉ p) :
    ¬ ("```json".data <:+: (p ++ "```".data)) := by
  intro hx
  obtain ⟨l₁, l₂, heq⟩ := hx
  have hlen : l₁.length + 7 + l₂.length = p.length + 3 := by
    have hl := congrArg List.length heq
    simp [List.length_append] at hl
    omega
  have hil : l₁.length < p.length := by omega
  have h1 : (l₁ ++ ("```json".data ++ l₂))[l₁.length]? = some '\x60' := by
    rw [List.getElem?_append_right (le_refl _), Nat.sub_self]
    rw [List.getElem?_append]
    rw [if_pos (by decide : (0 : Nat) < ("```json".data).length)]
    rfl
  rw [← List.append_assoc, heq] at h1
  rw [List.getElem?_append, if_pos hil] at h1
  obtain ⟨hlt, hEq⟩ := List.getElem?_eq_some_iff.mp h1
  exact h (hEq ▸ p.getElem_mem hlt)

/-- Removing the generic fence from `p ++ fence` with `p` backtick-free
yields exactly `p`. -/
theorem removeAllF_fence3_append (p : List Char) (h : '\x60' ∉ p) :
    ∀ f, (p ++ "```".data).length ≤ f →
      removeAllF "```".data f (p ++ "```".data) = p := by
  induction p with
  | nil =>
    intro f hf
    cases f with
    | zero => simp at hf
    | succ f =>
      simp only [List.nil_append]
      rw [removeAllF_cons_pos _ _ _ _ (by decide)]
      exact removeAllF_nil _ _
  | cons c cs ih =>
    intro f hf
    have hc : c ≠ '\x60' := fun hcc => h (hcc ▸ List.mem_cons_self c cs)
    cases f with
    | zero =>
      simp only [List.length_append, List.length_cons] at hf
      omega
    | succ f =>
      rw [List.cons_append, removeAllF_cons_neg]
      · have hm : '\x60' ∉ cs := fun hmem => h (List.mem_cons_of_mem c hmem)
        have hlen2 : (cs ++ "```".data).length ≤ f := by
          simp only [List.length_append, List.length_cons] at hf ⊢
          omega
        rw [ih hm f hlen2]
      · intro hp
        have hpp := List.isPrefixOf_iff_prefix.mp hp
        rw [show "```".data = '\x60' :: '\x60' :: '\x60' :: ([] : List Char) from rfl] at hpp
        exact hc ((List.cons_prefix_cons.mp hpp).1.symm)

/-- `removeAllF` with a nonempty pattern consumes a leading occurrence of
the pattern. -/
theorem removeAllF_append_pat (pat rest : List Char) (hne : pat ≠ []) (f : Nat) :
    removeAllF pat (f + 1) (pat ++ rest) = removeAllF pat f ((pat ++ rest).drop pat.length) := by
  cases pat with
  | nil => exact absurd rfl hne
  | cons a as =>
    rw [List.cons_append]
    exact removeAllF_cons_pos _ _ _ _
      (List.isPrefixOf_iff_prefix.mpr ⟨rest, by rw [List.cons_append]⟩)

/-- Removing the json-fence opener from the fenced text consumes the
leading opener and leaves `p ++ fence` untouched when `p` is
backtick-free. -/
theorem removeAllF_fenceJ_wrap (p : List Char) (h : '\x60' ∉ p) (f : Nat)
    (hf : ("```json".data ++ (p ++ "```".data)).length ≤ f) :
    removeAllF "```json".data f ("```json".data ++ (p ++ "```".data)) = p ++ "```".data := by
  cases f with
  | zero =>
    simp [List.length_append] at hf
  | succ f =>
    rw [removeAllF_append_pat _ _ (by decide) f, List.drop_left]
    apply removeAllF_no_occurrence
    · simp [List.length_append] at hf ⊢
      omega
    · exact not_fenceJ_infix_append p h

/-- The stripped text is an infix of the original. -/
theorem pyStrip_occurs_in (l : List Char) : pyStrip l <:+: l :=
  (List.rdropWhile_prefix _ _).isInfix.trans (List.dropWhile_suffix _).isInfix

/-- `str.strip()` is idempotent. -/
theorem pyStrip_idem (l : List Char) : pyStrip (pyStrip l) = pyStrip l := by
  unfold pyStrip
  have h1 : List.dropWhile pyWsChar ((l.dropWhile pyWsChar).rdropWhile pyWsChar)
      = (l.dropWhile pyWsChar).rdropWhile pyWsChar := by
    rw [List.dropWhile_eq_self_iff]
    intro hl
    obtain ⟨t, ht⟩ := List.rdropWhile_prefix pyWsChar (l.dropWhile pyWsChar)
    have hl0 : 0 < (l.dropWhile pyWsChar).length := by
      rw [← ht]
      simp only [List.length_append]
      omega
    have hnot := List.dropWhile_get_zero_not pyWsChar l hl0
    have hq : ((l.dropWhile pyWsChar).rdropWhile pyWsChar)[0]?
        = (l.dropWhile pyWsChar)[0]? := by
      conv_rhs => rw [← ht]
      rw [List.getElem?_append, if_pos hl]
    rw [List.getElem?_eq_getElem hl, List.getElem?_eq_getElem hl0] at hq
    injection hq with hq
    simp only [List.get_eq_getElem]
    rw [hq]
    simpa using hnot
  rw [h1, List.rdropWhile_idempotent]

/-- Cleanup of a text containing no fences is just `strip`. -/
theorem cleanL_of_fence_free (s : List Char) (h3 : ¬ ("```".data <:+: s))
    (hJ : ¬ ("```json".data <:+: s)) : cleanL s = pyStrip s := by
  unfold cleanL pyRemove
  rw [removeAllF_no_occurrence _ _ _ (le_refl _) hJ]
  rw [removeAllF_no_occurrence _ _ _ (le_refl _) h3]

/-- `clean_json` is idempotent (list level). -/
theorem cleanL_idem (l : List Char) : cleanL (cleanL l) = cleanL l := by
  have h3 : ¬ ("```".data <:+: cleanL l) := by
    intro hx
    exact not_fence3_infix_removeAllF (pyRemove "```json" l).length (pyRemove "```json" l)
      (le_refl _) (hx.trans (pyStrip_occurs_in (pyRemove "```" (pyRemove "```json" l))))
  have hJ : ¬ ("```json".data <:+: cleanL l) := not_fenceJ_infix_of_not_fence3 _ h3
  rw [cleanL_of_fence_free (cleanL l) h3 hJ]
  show pyStrip (pyStrip (pyRemove "```" (pyRemove "```json" l)))
      = pyStrip (pyRemove "```" (pyRemove "```json" l))
  exact pyStrip_idem _

/-- Cleanup of the fenced text around a backtick-free payload is exactly
the stripped payload (list level). -/
theorem cleanL_wrap (p : List Char) (h : '\x60' ∉ p) :
    cleanL ("```json".data ++ p ++ "```".data) = pyStrip p := by
  unfold cleanL pyRemove
  rw [List.append_assoc]
  rw [removeAllF_fenceJ_wrap p h _ (le_refl _)]
  rw [removeAllF_fence3_append p h _ (le_refl _)]

/-! ## C3 — fence cleanup: corrected

Cleanup then decode agrees with decoding the payload only for payloads
that themselves contain no backticks: `str.replace` removes *every*
occurrence of the fence markers, including ones inside JSON string
literals, so fenced payloads containing backticks are altered. -/

/-- Counterexample to C3 as stated: for the fenced payload
`["a```b"]`, cleanup strips the inner backticks, so cleanup-then-decode
yields `["ab"]` while decoding the unwrapped payload directly yields
`["a```b"]`. -/
theorem cleanupNotLossless :
    clean_json "```json\n[\"a```b\"]\n```" = "[\"ab\"]" ∧
    jsonParse (clean_json "```json\n[\"a```b\"]\n```") = some (Json.arr [Json.str "ab"]) ∧
    jsonParse "\n[\"a```b\"]\n" = some (Json.arr [Json.str "a```b"]) ∧
    jsonParse (clean_json "```json\n[\"a```b\"]\n```") ≠ jsonParse "\n[\"a```b\"]\n" := by
  refine ⟨rfl, rfl, rfl, ?_⟩
  intro h
  rw [(rfl : jsonParse (clean_json "```json\n[\"a```b\"]\n```")
        = some (Json.arr [Json.str "ab"]))] at h
  rw [(rfl : jsonParse "\n[\"a```b\"]\n" = some (Json.arr [Json.str "a```b"]))] at h
  injection h with h
  injection h with h
  injection h with h h2
  injection h with h
  exact absurd h (by decide)

/-- C3 amended: for every payload containing no backtick character,
cleanup of the fenced text (json opener, payload, closing fence) yields
exactly the whitespace-stripped payload — hence decoding after cleanup
agrees with decoding the stripped payload — and the cleanup step is
idempotent on every text. -/
theorem cleanupFencedAmended :
    (∀ p : String, (∀ c ∈ p.data, c ≠ '\x60') →
      clean_json ("```json" ++ p ++ "```") = ⟨pyStrip p.data⟩ ∧
      jsonParse (clean_json ("```json" ++ p ++ "```")) = jsonParse ⟨pyStrip p.data⟩) ∧
    (∀ t : String, clean_json (clean_json t) = clean_json t) := by
  constructor
  · intro p hp
    have hmem : '\x60' ∉ p.data := fun hm => hp _ hm rfl
    have hdata : ("```json" ++ p ++ "```").data
        = "```json".data ++ p.data ++ "```".data := by
      rw [String.data_append, String.data_append]
    have hclean : clean_json ("```json" ++ p ++ "```") = ⟨pyStrip p.data⟩ := by
      unfold clean_json
      rw [hdata, cleanL_wrap p.data hmem]
    exact ⟨hclean, by rw [hclean]⟩
  · intro t
    unfold clean_json
    exact congrArg String.mk (cleanL_idem t.data)

/-- Witness for C3 amended at the payload `"\n[1]\n"`. -/
theorem cleanupFencedAmended_witness :
    (∀ c ∈ ("\n[1]\n" : String).data, c ≠ '\x60') ∧
    clean_json ("```json" ++ "\n[1]\n" ++ "```") = ⟨pyStrip ("\n[1]\n" : String).data⟩ ∧
    jsonParse (clean_json ("```json" ++ "\n[1]\n" ++ "```"))
      = jsonParse ⟨pyStrip ("\n[1]\n" : String).data⟩ ∧
    clean_json (clean_json "x ``` y") = clean_json "x ``` y" :=
  ⟨by decide,
   (cleanupFencedAmended.1 "\n[1]\n" (by decide)).1,
   (cleanupFencedAmended.1 "\n[1]\n" (by decide)).2,
   cleanupFencedAmended.2 "x ``` y"⟩

/-! ## C6 — the stamp: corrected

The format is right, but the stamp is taken when the `results` dict is
created (line 108), before the resort loop runs — not after all resorts
are processed (the spec's own invariants section says as much: the stamp
reflects the run's start). -/

/-- Counterexample to C6 as stated: in a run that does fetch work, the
clock read precedes that work in the trace, so the stamp is not taken
after the resorts are processed. -/
theorem stampNotAfterProcessing :
    (runMain envBrowserFail [cfgLiftOnly]).2.filter isWorkEv =
      [Ev.browse "https://x.example/lifts"] ∧
    clockReadAfterAllWork ((runMain envBrowserFail [cfgLiftOnly]).2) = false :=
  ⟨rfl, rfl⟩

/-- C6 amended: the stamp is read once, at the start of the run before
any resort is processed (the clock read is the first event of every
trace), `last_updated` is exactly that epoch second rendered by the model
of `strftime("%Y-%m-%dT%H:%M:%SZ", gmtime())`, and every such stamp is an
ISO-8601 UTC timestamp with second precision. -/
theorem stampAtRunStart (env : Env) (registry : List ResortConfig) :
    (runMain env registry).2.head? = some Ev.clockRead ∧
    (buildSnapshot env registry).last_updated = isoUtc env.now ∧
    (∀ snap, (runMain env registry).1 = Except.ok snap →
      snap.last_updated = isoUtc env.now) ∧
    (∀ t, ∃ y m d hh mi ss,
      1 ≤ m ∧ m ≤ 12 ∧ 1 ≤ d ∧ d ≤ 31 ∧ hh < 24 ∧ mi < 60 ∧ ss < 60 ∧
      isoUtc t = pad4 y ++ "-" ++ pad2 m ++ "-" ++ pad2 d ++ "T" ++
        pad2 hh ++ ":" ++ pad2 mi ++ ":" ++ pad2 ss ++ "Z") := by
  refine ⟨?_, rfl, ?_, isoUtc_shape⟩
  · unfold runMain
    cases hm : env.mkdirOk <;> cases hw : env.writeOk <;> rfl
  · intro snap hsnap
    unfold runMain at hsnap
    cases hm : env.mkdirOk <;> cases hw : env.writeOk <;>
      rw [hm, hw] at hsnap <;> simp at hsnap
    subst hsnap
    rfl

/-- Witness for C6 amended: the implication discharged at a concrete
successful run. -/
theorem stampAtRunStart_witness :
    (runMain envNullText [cfgNoUrls]).1 = Except.ok (buildSnapshot envNullText [cfgNoUrls]) ∧
    (buildSnapshot envNullText [cfgNoUrls]).last_updated = isoUtc envNullText.now ∧
    (runMain envNullText [cfgNoUrls]).2.head? = some Ev.clockRead :=
  ⟨rfl,
   (stampAtRunStart envNullText [cfgNoUrls]).2.2.1 (buildSnapshot envNullText [cfgNoUrls]) rfl,
   (stampAtRunStart envNullText [cfgNoUrls]).1⟩

end Skimate
